import Mathlib

/-!
Shallow embedding of `src/c/examples/raw_echo.c` (Apache qpid-proton raw
echo server example).

The C program is single-threaded and event-driven: the proactor delivers
one event at a time to `handle`, which delegates raw-connection events to
`handle_receive`.  We mirror the program state (the fixed `conn_data`
array, the `app_data_t` fields, the global `exit_code`, and the context
pointer stored on each raw connection) in the `State` structure, and each
event handler as a pure transition `handle : State → Event → Option
StepResult`, where the returned action list records the calls the handler
makes outward into the proactor (accept, close, give/write buffers, wake,
set-timeout, the `recv_message` output sink, `free`).  A `none` result
models undefined behaviour: the handler dereferences (or does pointer
arithmetic on) a NULL `conn_data_t *` context.

Raw connections are identified by natural numbers (abstract
`pn_raw_connection_t *` values).  Quantities the C code obtains from the
engine inside a handler (current time `pn_proactor_now_64()`, the batches
returned by `pn_raw_connection_take_read_buffers` /
`take_written_buffers`, the `is_write_closed` / `is_read_closed` flags,
whether a condition is set, and the success of each `malloc`) are carried
as parameters of the corresponding event.
-/

namespace RawEcho

/-- The C macro definition MAX_CONNECTIONS = 5. -/
abbrev MAX_CONNECTIONS : Nat := 5

/-- The C macro definition READ_BUFFERS = 4. -/
abbrev READ_BUFFERS : Nat := 4

/-- Model of `pn_raw_buffer_t`: `bytes` is `none` when the underlying pointer is
NULL (e.g. after a failed `malloc`), otherwise the pointed-to memory. -/
structure RawBuffer where
  bytes : Option (List Nat)
  capacity : Nat
  size : Nat
  offset : Nat
deriving DecidableEq

/-- Model of `conn_data_t`: one slot of the fixed table. -/
structure ConnData where
  connection : Option Nat
  last_recv_time : Int
  bytes : Int
  buffers : Int
deriving DecidableEq

/-- The whole mutable state of the program: the `conn_data` array, the
per-connection context pointers (`pn_raw_connection_set_context` stores a
pointer to `conn_data[i]`, modelled as the index `i`), the `app_data_t`
fields used by the handlers, whether `app->listener` is still non-NULL,
and the global `exit_code`. -/
structure State where
  conn_data : Fin MAX_CONNECTIONS → ConnData
  ctx : Nat → Option (Fin MAX_CONNECTIONS)
  first_idle_time : Int
  try_accept_time : Int
  wake_conn_time : Int
  connects : Int
  disconnects : Int
  listener : Bool
  exit_code : Int

/-- Events delivered by the proactor, with the engine-supplied data each
handler reads while processing them. -/
inductive Event where
  | listenerOpen
  | listenerAccept (c : Nat) (now : Int)
  | listenerClose (condSet : Bool)
  | connected (c : Nat) (mallocOk : List Bool)
  | wakeup (c : Nat)
  | disconnected (c : Nat) (condSet : Bool)
  | needReadBuffers (c : Nat)
  | read (c : Nat) (now : Int) (batches : List (List RawBuffer))
      (writeClosed readClosed : Bool)
  | closedWrite (c : Nat)
  | closedRead (c : Nat)
  | written (c : Nat) (batches : List (List RawBuffer)) (readClosed : Bool)
  | timeout (now : Int)
  | inactive
deriving DecidableEq

/-- Calls the handlers make outward. -/
inductive Action where
  | accept (c : Nat)
  | closeConn (c : Nat)
  | closeListener
  | giveReadBuffers (c : Nat) (bufs : List RawBuffer)
  | writeBuffers (c : Nat) (bufs : List RawBuffer)
  | freeBuffer (b : RawBuffer)
  | wake (c : Nat)
  | setTimeout (ms : Int)
  | recvMessage (b : RawBuffer)
deriving DecidableEq

/-- Result of one `handle` call: the new state, the outward calls made,
and the boolean `handle` returns (`false` stops the event loop). -/
structure StepResult where
  state : State
  acts : List Action
  cont : Bool

/-- Translation of `make_conn_data`: scan `conn_data` for the first entry whose
`connection` is NULL, store the new connection there and return its
index; return NULL (`none`) when every entry is taken.  Only the
`connection` field of the chosen slot is written. -/
def make_conn_data (c : Nat) (cd : Fin MAX_CONNECTIONS → ConnData) :
    Option (Fin MAX_CONNECTIONS) × (Fin MAX_CONNECTIONS → ConnData) :=
  match (List.finRange MAX_CONNECTIONS).find? (fun i => ((cd i).connection).isNone) with
  | some i => (some i, fun j => if j = i then { cd i with connection := some c } else cd j)
  | none => (none, cd)

/-- Translation of `free_conn_data`: if the context is non-NULL, clear only its
`connection` field; the counters are left untouched. -/
def free_conn_data (cd : Option (Fin MAX_CONNECTIONS))
    (arr : Fin MAX_CONNECTIONS → ConnData) : Fin MAX_CONNECTIONS → ConnData :=
  match cd with
  | some i => fun j => if j = i then { arr i with connection := none } else arr j
  | none => arr

/-- The `READ_BUFFERS` buffers built in the `PN_RAW_CONNECTION_CONNECTED`
case: buffer `i` gets `bytes = malloc(1024)` (NULL when the `i`-th malloc
fails), `capacity = 1024`, `size = 0`, `offset = 0`.  The malloc results
are given by `m` (missing entries default to success). -/
def mkReadBuffers (m : List Bool) : List RawBuffer :=
  (List.range READ_BUFFERS).map fun i =>
    { bytes := if m.getD i true then some [] else none,
      capacity := 1024, size := 0, offset := 0 }

/-- The prefix of a buffer batch scanned by the loops of the form
`for (i = 0; i < n && buffs[i].bytes; ++i)`: buffers up to the first one
whose `bytes` pointer is NULL. -/
def takeNonNull (bs : List RawBuffer) : List RawBuffer :=
  bs.takeWhile fun b => (b.bytes).isSome

/-- Outward calls made for one batch inside the `PN_RAW_CONNECTION_READ`
while-loop: `recv_message` for each buffer up to the first NULL pointer,
then either `pn_raw_connection_write_buffers` (write side open),
`pn_raw_connection_give_read_buffers` (write closed, read open), or
`free` on each non-NULL buffer. -/
def batchActs (c : Nat) (writeClosed readClosed : Bool)
    (batch : List RawBuffer) : List Action :=
  (takeNonNull batch).map Action.recvMessage ++
    (if writeClosed = false then [Action.writeBuffers c batch]
     else if readClosed = false then [Action.giveReadBuffers c batch]
     else (takeNonNull batch).map Action.freeBuffer)

/-- Slot-counter updates for one batch inside `PN_RAW_CONNECTION_READ`:
`cd->bytes += buffs[i].size` for each buffer up to the first NULL
pointer, and `cd->buffers += n` for the whole batch. -/
def applyBatch (d : ConnData) (batch : List RawBuffer) : ConnData :=
  { d with
    bytes := d.bytes + ((takeNonNull batch).map fun b => (b.size : Int)).sum,
    buffers := d.buffers + batch.length }

/-- The `while ((n = pn_raw_connection_take_read_buffers(...)))` loop:
`batches` lists the successive non-empty returns of
`take_read_buffers`. -/
def runBatches (c : Nat) (writeClosed readClosed : Bool) :
    ConnData × List Action → List (List RawBuffer) → ConnData × List Action
  | p, [] => p
  | (d, as), batch :: rest =>
      runBatches c writeClosed readClosed
        (applyBatch d batch, as ++ batchActs c writeClosed readClosed batch) rest

/-- Outward calls for one batch of the `PN_RAW_CONNECTION_WRITTEN`
while-loop. -/
def writtenBatchActs (c : Nat) (readClosed : Bool)
    (batch : List RawBuffer) : List Action :=
  if readClosed = false then [Action.giveReadBuffers c batch]
  else (takeNonNull batch).map Action.freeBuffer

/-- Translation of `handle_receive`: the raw-connection event cases.  Returns the new
state and the outward calls; `none` models the undefined behaviour
reached when the NULL context is used (`cd->last_recv_time = ...` in the
READ case, the `cd - conn_data` pointer arithmetic in the WAKE case). -/
def handle_receive (s : State) (e : Event) : Option (State × List Action) :=
  match e with
  | .connected c m =>
      match s.ctx c with
      | some _ =>
          some ({ s with connects := s.connects + 1 },
                [Action.giveReadBuffers c (mkReadBuffers m)])
      | none => some (s, [])
  | .wakeup c =>
      match s.ctx c with
      | some _ => some (s, [])
      | none => none
  | .disconnected c _ =>
      some ({ s with
              disconnects := s.disconnects + 1,
              conn_data := free_conn_data (s.ctx c) s.conn_data }, [])
  | .needReadBuffers _ => some (s, [])
  | .read c now batches writeClosed readClosed =>
      match s.ctx c with
      | none => none
      | some i =>
          let d0 := { s.conn_data i with last_recv_time := now }
          let res := runBatches c writeClosed readClosed (d0, []) batches
          some ({ s with
                  conn_data := fun j => if j = i then res.1 else s.conn_data j },
                res.2)
  | .closedWrite c => some (s, [Action.closeConn c])
  | .closedRead c => some (s, [Action.closeConn c])
  | .written c batches readClosed =>
      some (s, (batches.map (writtenBatchActs c readClosed)).flatten)
  | _ => some (s, [])

/-- The wake loop of the `PN_PROACTOR_TIMEOUT` case:
`pn_raw_connection_wake(conn_data[i].connection)` for each slot with a
non-NULL connection, in index order. -/
def wakeActs (cd : Fin MAX_CONNECTIONS → ConnData) : List Action :=
  (List.finRange MAX_CONNECTIONS).filterMap fun i =>
    ((cd i).connection).map Action.wake

/-- Translation of `handle`: the top-level event dispatcher.  Every case other than
`PN_PROACTOR_INACTIVE` ends with `return exit_code == 0`. -/
def handle (s : State) (e : Event) : Option StepResult :=
  match e with
  | .listenerOpen => some ⟨s, [], s.exit_code == 0⟩
  | .listenerAccept c now =>
      match make_conn_data c s.conn_data with
      | (some i, cdNew) =>
          let willSet := s.wake_conn_time < now
          some ⟨{ s with
                  conn_data := cdNew,
                  first_idle_time := 0,
                  try_accept_time := 0,
                  wake_conn_time := if willSet then now + 5000 else s.wake_conn_time,
                  ctx := fun x => if x = c then some i else s.ctx x },
                (if willSet then [Action.setTimeout 5000] else []) ++ [Action.accept c],
                s.exit_code == 0⟩
      | (none, _) =>
          some ⟨s, [Action.accept c, Action.closeConn c], s.exit_code == 0⟩
  | .listenerClose condSet =>
      let ec := if condSet then 1 else s.exit_code
      some ⟨{ s with listener := false, exit_code := ec }, [], ec == 0⟩
  | .timeout now =>
      if s.connects - s.disconnects = 0 then
        if s.first_idle_time = 0 then
          some ⟨{ s with first_idle_time := now },
                [Action.setTimeout 20000], s.exit_code == 0⟩
        else if s.first_idle_time + 20000 ≤ now then
          some ⟨s, [Action.closeListener], s.exit_code == 0⟩
        else
          some ⟨s, [Action.setTimeout 20000], s.exit_code == 0⟩
      else if s.wake_conn_time ≤ now then
        some ⟨{ s with wake_conn_time := now + 5000 },
              wakeActs s.conn_data ++ [Action.setTimeout 5000], s.exit_code == 0⟩
      else
        some ⟨s, [Action.setTimeout 5000], s.exit_code == 0⟩
  | .inactive => some ⟨s, [], false⟩
  | e =>
      (handle_receive s e).map fun p => ⟨p.1, p.2, p.1.exit_code == 0⟩

/-- A fresh `conn_data_t` entry (static zero initialisation). -/
def initConnData : ConnData :=
  { connection := none, last_recv_time := 0, bytes := 0, buffers := 0 }

/-- Program state at entry to `run`: `conn_data` zero-initialised,
`app_data_t` zero-initialised except that `main` has installed a listener,
`exit_code = 0`, and no connection has a context yet. -/
def initialState : State :=
  { conn_data := fun _ => initConnData, ctx := fun _ => none,
    first_idle_time := 0, try_accept_time := 0, wake_conn_time := 0,
    connects := 0, disconnects := 0, listener := true, exit_code := 0 }

/-- The `run` loop: process events in order; stop early when `handle`
returns false; `none` when a step hits undefined behaviour. -/
def runTrace : State → List Event → Option State
  | s, [] => some s
  | s, e :: es =>
      match handle s e with
      | none => none
      | some r => if r.cont then runTrace r.state es else some r.state

/-- Number of slots whose `connection` field is non-NULL. -/
def boundCount (cd : Fin MAX_CONNECTIONS → ConnData) : Nat :=
  ((List.finRange MAX_CONNECTIONS).filter fun i => ((cd i).connection).isSome).length

/-! Concrete states and traces used by witnesses and counterexamples. -/

/-- A slot table with every entry free. -/
def emptyTable : Fin MAX_CONNECTIONS → ConnData := fun _ => initConnData

/-- The state reached from `initialState` after connection 1 is accepted
into slot 0. -/
def s1 : State :=
  match runTrace initialState [Event.listenerAccept 1 0] with
  | some s => s
  | none => initialState

/-- A state in which every slot is taken (connections 1..5 bound). -/
def fullState : State :=
  { initialState with
    conn_data := fun j =>
      { connection := some (j.val + 1), last_recv_time := 0, bytes := 0, buffers := 0 },
    ctx := fun c => if 1 ≤ c ∧ c ≤ MAX_CONNECTIONS then some ⟨0, by decide⟩ else none,
    connects := 5 }

/-! Helper lemmas about the handlers. -/

lemma boundCount_le (cd : Fin MAX_CONNECTIONS → ConnData) :
    boundCount cd ≤ MAX_CONNECTIONS := by
  have h := List.length_filter_le
    (fun i => ((cd i).connection).isSome) (List.finRange MAX_CONNECTIONS)
  simpa [boundCount] using h

lemma make_conn_data_full (c : Nat) (cd : Fin MAX_CONNECTIONS → ConnData)
    (h : ∀ i, ((cd i).connection).isSome) : make_conn_data c cd = (none, cd) := by
  have hf : (List.finRange MAX_CONNECTIONS).find?
      (fun i => ((cd i).connection).isNone) = none := by
    rw [List.find?_eq_none]
    intro i _
    have := h i
    cases hc : (cd i).connection <;> simp_all
  simp [make_conn_data, hf]

lemma handle_read_def (s : State) (c : Nat) (now : Int)
    (batches : List (List RawBuffer)) (w r : Bool) :
    handle s (Event.read c now batches w r) =
      (handle_receive s (Event.read c now batches w r)).map
        fun p => ⟨p.1, p.2, p.1.exit_code == 0⟩ := rfl

lemma handle_wakeup_def (s : State) (c : Nat) :
    handle s (Event.wakeup c) =
      (handle_receive s (Event.wakeup c)).map
        fun p => ⟨p.1, p.2, p.1.exit_code == 0⟩ := rfl

lemma handle_connected_def (s : State) (c : Nat) (m : List Bool) :
    handle s (Event.connected c m) =
      (handle_receive s (Event.connected c m)).map
        fun p => ⟨p.1, p.2, p.1.exit_code == 0⟩ := rfl

lemma handle_disconnected_def (s : State) (c : Nat) (b : Bool) :
    handle s (Event.disconnected c b) =
      (handle_receive s (Event.disconnected c b)).map
        fun p => ⟨p.1, p.2, p.1.exit_code == 0⟩ := rfl

lemma handle_accept_full (s : State) (c : Nat) (now : Int)
    (hfull : ∀ i, ((s.conn_data i).connection).isSome) :
    handle s (Event.listenerAccept c now) =
      some ⟨s, [Action.accept c, Action.closeConn c], s.exit_code == 0⟩ := by
  simp [handle, make_conn_data_full c s.conn_data hfull]

lemma handle_connected_ctx (s : State) (c : Nat) (m : List Bool)
    (i : Fin MAX_CONNECTIONS) (h : s.ctx c = some i) :
    handle s (Event.connected c m) =
      some ⟨{ s with connects := s.connects + 1 },
            [Action.giveReadBuffers c (mkReadBuffers m)], s.exit_code == 0⟩ := by
  rw [handle_connected_def]
  simp [handle_receive, h]

lemma handle_disconnected_eq (s : State) (c : Nat) (b : Bool) :
    handle s (Event.disconnected c b) =
      some ⟨{ s with
              disconnects := s.disconnects + 1,
              conn_data := free_conn_data (s.ctx c) s.conn_data },
            [], s.exit_code == 0⟩ := by
  rw [handle_disconnected_def]
  simp [handle_receive]

/-! Claim theorems. -/

/-- Claim C3: for every slot table and candidate connection, the number of
simultaneously bound slots never exceeds MAX_CONNECTIONS = 5, and
`make_conn_data` assigns a slot only when one of the 5 fixed entries has
an empty connection handle (binding the new connection there), returning
NULL exactly when all entries are taken. -/
theorem C3_slot_capacity (cd : Fin MAX_CONNECTIONS → ConnData) (c : Nat) :
    boundCount (make_conn_data c cd).2 ≤ MAX_CONNECTIONS ∧
    ((make_conn_data c cd).1 = none ↔ ∀ i, ((cd i).connection).isSome) ∧
    (∀ i, (make_conn_data c cd).1 = some i → (cd i).connection = none) ∧
    (∀ i, (make_conn_data c cd).1 = some i →
      ((make_conn_data c cd).2 i).connection = some c) := by
  refine ⟨boundCount_le _, ?_, ?_, ?_⟩
  · cases hf : (List.finRange MAX_CONNECTIONS).find?
        (fun i => ((cd i).connection).isNone) with
    | some i =>
        have hp := List.find?_some hf
        constructor
        · intro h
          simp [make_conn_data, hf] at h
        · intro hall
          have := hall i
          cases hc : (cd i).connection <;> simp_all
    | none =>
        have hnone := List.find?_eq_none.mp hf
        constructor
        · intro _ i
          have hi := hnone i (List.mem_finRange i)
          cases hc : (cd i).connection <;> simp_all
        · intro _
          simp [make_conn_data, hf]
  · intro i hi
    cases hf : (List.finRange MAX_CONNECTIONS).find?
        (fun i => ((cd i).connection).isNone) with
    | none => simp [make_conn_data, hf] at hi
    | some i0 =>
        simp [make_conn_data, hf] at hi
        subst hi
        have hp := List.find?_some hf
        simpa [Option.isNone_iff_eq_none] using hp
  · intro i hi
    cases hf : (List.finRange MAX_CONNECTIONS).find?
        (fun i => ((cd i).connection).isNone) with
    | none => simp [make_conn_data, hf] at hi
    | some i0 =>
        simp [make_conn_data, hf] at hi
        subst hi
        simp [make_conn_data, hf]

/-- Witness for C3 at the empty slot table and connection 7. -/
theorem C3_witness :
    boundCount (make_conn_data 7 emptyTable).2 ≤ MAX_CONNECTIONS ∧
    ((make_conn_data 7 emptyTable).1 = none ↔
      ∀ i, ((emptyTable i).connection).isSome) ∧
    (∀ i, (make_conn_data 7 emptyTable).1 = some i →
      (emptyTable i).connection = none) ∧
    (∀ i, (make_conn_data 7 emptyTable).1 = some i →
      ((make_conn_data 7 emptyTable).2 i).connection = some 7) :=
  C3_slot_capacity emptyTable 7

/-- Claim C7: on an incoming-connection event with the slot table full,
the connection is still accepted through `pn_listener_raw_accept` and
then immediately closed, the program state is unchanged, and (absent a
prior fatal error) `handle` returns true so the service keeps processing
events. -/
theorem C7_accept_then_close (s : State) (c : Nat) (now : Int)
    (hfull : ∀ i, ((s.conn_data i).connection).isSome) :
    handle s (Event.listenerAccept c now) =
      some ⟨s, [Action.accept c, Action.closeConn c], s.exit_code == 0⟩ ∧
    (s.exit_code = 0 →
      ∃ r, handle s (Event.listenerAccept c now) = some r ∧ r.cont = true) := by
  refine ⟨handle_accept_full s c now hfull, fun h0 => ?_⟩
  refine ⟨_, handle_accept_full s c now hfull, ?_⟩
  simp [h0]

/-- Witness for C7: a full table (connections 1..5 bound) rejects
connection 99 by accept-then-close and continues. -/
theorem C7_witness :
    handle fullState (Event.listenerAccept 99 0) =
      some ⟨fullState, [Action.accept 99, Action.closeConn 99],
            fullState.exit_code == 0⟩ ∧
    (fullState.exit_code = 0 →
      ∃ r, handle fullState (Event.listenerAccept 99 0) = some r ∧
        r.cont = true) :=
  C7_accept_then_close fullState 99 0 (by decide)

/-- Claim C10: the data-arrival (`PN_RAW_CONNECTION_READ`) and wake
(`PN_RAW_CONNECTION_WAKE`) handlers use the per-connection context with
no NULL check (`cd->last_recv_time = ...`, resp. the `cd - conn_data`
pointer arithmetic), so they are well-defined only when the connection
has a bound slot.  A connection admitted through the accept-then-close
rejection path never gets a context, hence a read or wake event for it
before teardown reaches undefined behaviour on the NULL context
(modelled as `none`). -/
theorem C10_null_context_ub (s : State) (c : Nat) (now tnow : Int)
    (batches : List (List RawBuffer)) (w r : Bool)
    (hfull : ∀ i, ((s.conn_data i).connection).isSome)
    (hc : s.ctx c = none) :
    handle s (Event.listenerAccept c now) =
      some ⟨s, [Action.accept c, Action.closeConn c], s.exit_code == 0⟩ ∧
    handle s (Event.read c tnow batches w r) = none ∧
    handle s (Event.wakeup c) = none := by
  refine ⟨handle_accept_full s c now hfull, ?_, ?_⟩
  · rw [handle_read_def]
    simp [handle_receive, hc]
  · rw [handle_wakeup_def]
    simp [handle_receive, hc]

/-- Witness for C10: with the table full, connection 99 is rejected with
no context, and a subsequent read or wake event for it is undefined. -/
theorem C10_witness :
    handle fullState (Event.listenerAccept 99 0) =
      some ⟨fullState, [Action.accept 99, Action.closeConn 99],
            fullState.exit_code == 0⟩ ∧
    handle fullState (Event.read 99 7 [] false false) = none ∧
    handle fullState (Event.wakeup 99) = none :=
  C10_null_context_ub fullState 99 0 7 [] false false (by decide) (by decide)

/-- A state that has been idle since time 100 with no live connections. -/
def idleState : State := { initialState with first_idle_time := 100 }

/-- A state with one live connection (id 9 in slot 0). -/
def activeState : State :=
  { initialState with
    connects := 1,
    conn_data := fun j =>
      if j = 0 then
        { connection := some 9, last_recv_time := 0, bytes := 0, buffers := 0 }
      else initConnData }

lemma mem_wakeActs (cd : Fin MAX_CONNECTIONS → ConnData) (c : Nat) :
    Action.wake c ∈ wakeActs cd ↔ ∃ i, (cd i).connection = some c := by
  simp only [wakeActs, List.mem_filterMap, List.mem_finRange, true_and]
  constructor
  · rintro ⟨i, hi⟩
    rcases hc : (cd i).connection with _ | a
    · simp [hc] at hi
    · simp only [hc, Option.map_some'] at hi
      cases hi
      exact ⟨i, hc⟩
  · rintro ⟨i, hi⟩
    exact ⟨i, by simp [hi]⟩

/-- Claim C4: on a timer-fired event when no connections are active
(`connects == disconnects`), `firstIdleTime` is already set and at least
20000 ms have elapsed since it, the handler closes the listener (its only
outward call, hence exactly one close) and breaks out without re-arming
the timer: no set-timeout call is made, so no further timer or accept
processing is driven from this path. -/
theorem C4_idle_shutdown (s : State) (now : Int)
    (h1 : s.connects = s.disconnects)
    (h2 : s.first_idle_time ≠ 0)
    (h3 : s.first_idle_time + 20000 ≤ now) :
    handle s (Event.timeout now) =
      some ⟨s, [Action.closeListener], s.exit_code == 0⟩ ∧
    (∀ ms, Action.setTimeout ms ∉ ([Action.closeListener] : List Action)) := by
  have h0 : s.connects - s.disconnects = 0 := by omega
  constructor
  · simp [handle, h0, h2, h3]
  · intro ms
    simp

/-- Witness for C4: idle since time 100, timer fires at 20100. -/
theorem C4_witness :
    handle idleState (Event.timeout 20100) =
      some ⟨idleState, [Action.closeListener], idleState.exit_code == 0⟩ ∧
    (∀ ms, Action.setTimeout ms ∉ ([Action.closeListener] : List Action)) :=
  C4_idle_shutdown idleState 20100 (by decide) (by decide) (by decide)

/-- Claim C5: on a timer-fired event with at least one active connection
(`connects != disconnects`) and `now` at or past the wake deadline, a
wake is delivered exactly to the connections held by bound slots,
`wake_conn_time` becomes `now + 5000`, and the timer is re-armed with a
5000 ms delay. -/
theorem C5_keepalive_sweep (s : State) (now : Int)
    (h1 : s.connects ≠ s.disconnects)
    (h2 : s.wake_conn_time ≤ now) :
    ∃ r, handle s (Event.timeout now) = some r ∧
      r.state.wake_conn_time = now + 5000 ∧
      Action.setTimeout 5000 ∈ r.acts ∧
      (∀ c, Action.wake c ∈ r.acts ↔ ∃ i, (s.conn_data i).connection = some c) := by
  have h0 : ¬ s.connects - s.disconnects = 0 := by omega
  refine ⟨⟨{ s with wake_conn_time := now + 5000 },
          wakeActs s.conn_data ++ [Action.setTimeout 5000], s.exit_code == 0⟩,
        ?_, rfl, ?_, ?_⟩
  · simp [handle, h0, h2]
  · simp
  · intro c
    simp only [List.mem_append, List.mem_singleton]
    rw [show (Action.wake c = Action.setTimeout 5000) = False by simp]
    rw [mem_wakeActs]
    simp

/-- Witness for C5: one live connection (id 9), timer fires at time 0
with the wake deadline already reached. -/
theorem C5_witness :
    ∃ r, handle activeState (Event.timeout 0) = some r ∧
      r.state.wake_conn_time = 0 + 5000 ∧
      Action.setTimeout 5000 ∈ r.acts ∧
      (∀ c, Action.wake c ∈ r.acts ↔
        ∃ i, (activeState.conn_data i).connection = some c) :=
  C5_keepalive_sweep activeState 0 (by decide) (by decide)

lemma takeNonNull_eq_self (batch : List RawBuffer)
    (h : ∀ b ∈ batch, (b.bytes).isSome) : takeNonNull batch = batch := by
  induction batch with
  | nil => rfl
  | cons b bs ih =>
      have hb : (b.bytes).isSome = true := h b (List.mem_cons_self b bs)
      have hbs : ∀ x ∈ bs, (x.bytes).isSome := fun x hx =>
        h x (List.mem_cons_of_mem b hx)
      simp only [takeNonNull, List.takeWhile_cons, hb, if_true,
        List.cons.injEq, true_and]
      exact ih hbs

lemma runBatches_snd (c : Nat) (w r : Bool) (d : ConnData) (as : List Action)
    (L : List (List RawBuffer)) :
    (runBatches c w r (d, as) L).2 = as ++ (L.map (batchActs c w r)).flatten := by
  induction L generalizing d as with
  | nil => simp [runBatches]
  | cons batch rest ih => simp [runBatches, ih]

/-- Claim C6: on a data-arrival event for a slotted connection, every
returned buffer (the batches all consisting of buffers with non-NULL
payload pointers, as is the case for buffers the program handed out) has
its payload delivered to the output sink via `recv_message`, and each
batch is then dispositioned as: written back (`write_buffers`) if the
write direction is open; else recycled for reading
(`give_read_buffers`) if the read direction is open; else each buffer is
freed. -/
theorem C6_read_echo_disposition (s : State) (c : Nat) (now : Int)
    (batches : List (List RawBuffer)) (wClosed rClosed : Bool)
    (i : Fin MAX_CONNECTIONS)
    (hctx : s.ctx c = some i)
    (hnn : ∀ batch ∈ batches, ∀ b ∈ batch, (b.bytes).isSome) :
    ∃ r, handle s (Event.read c now batches wClosed rClosed) = some r ∧
      (∀ batch ∈ batches, ∀ b ∈ batch, Action.recvMessage b ∈ r.acts) ∧
      (∀ batch ∈ batches,
        (wClosed = false → Action.writeBuffers c batch ∈ r.acts) ∧
        (wClosed = true → rClosed = false →
          Action.giveReadBuffers c batch ∈ r.acts) ∧
        (wClosed = true → rClosed = true →
          ∀ b ∈ batch, Action.freeBuffer b ∈ r.acts)) := by
  rw [handle_read_def]
  rw [show handle_receive s (Event.read c now batches wClosed rClosed) =
      some ({ s with conn_data := fun j =>
                if j = i then
                  (runBatches c wClosed rClosed
                    ({ s.conn_data i with last_recv_time := now }, []) batches).1
                else s.conn_data j },
            (runBatches c wClosed rClosed
              ({ s.conn_data i with last_recv_time := now }, []) batches).2)
    from by simp [handle_receive, hctx]]
  refine ⟨_, rfl, ?_, ?_⟩
  all_goals
    simp only [runBatches_snd, List.nil_append]
  · intro batch hbatch b hb
    refine List.mem_flatten.mpr ⟨batchActs c wClosed rClosed batch,
      List.mem_map_of_mem _ hbatch, ?_⟩
    have : b ∈ takeNonNull batch := by
      rw [takeNonNull_eq_self batch (hnn batch hbatch)]
      exact hb
    exact List.mem_append_left _ (List.mem_map_of_mem _ this)
  · intro batch hbatch
    have hsub : ∀ a ∈ batchActs c wClosed rClosed batch,
        a ∈ (batches.map (batchActs c wClosed rClosed)).flatten := fun a ha =>
      List.mem_flatten.mpr ⟨batchActs c wClosed rClosed batch,
        List.mem_map_of_mem _ hbatch, ha⟩
    refine ⟨fun hw => ?_, fun hw hr => ?_, fun hw hr b hb => ?_⟩
    · exact hsub _ (by simp [batchActs, hw])
    · exact hsub _ (by simp [batchActs, hw, hr])
    · refine hsub _ ?_
      have hmem : b ∈ takeNonNull batch := by
        rw [takeNonNull_eq_self batch (hnn batch hbatch)]
        exact hb
      simp only [batchActs, hw, hr]
      simp only [List.mem_append]
      right
      exact List.mem_map_of_mem _ hmem

/-- A non-empty raw buffer as returned by the engine: 5 payload bytes. -/
def echoBuf : RawBuffer :=
  { bytes := some [1, 2, 3, 4, 5], capacity := 1024, size := 5, offset := 0 }

/-- Witness for C6: connection 1 in slot 0 receives one batch containing
one buffer, with both directions open. -/
theorem C6_witness :
    ∃ r, handle s1 (Event.read 1 10 [[echoBuf]] false false) = some r ∧
      (∀ batch ∈ [[echoBuf]], ∀ b ∈ batch, Action.recvMessage b ∈ r.acts) ∧
      (∀ batch ∈ [[echoBuf]],
        (false = false → Action.writeBuffers 1 batch ∈ r.acts) ∧
        (false = true → false = false →
          Action.giveReadBuffers 1 batch ∈ r.acts) ∧
        (false = true → false = true →
          ∀ b ∈ batch, Action.freeBuffer b ∈ r.acts)) :=
  C6_read_echo_disposition s1 1 10 [[echoBuf]] false false 0
    (by decide) (by decide)

/-! Claim C1 concerns the invariant `disconnects ≤ connects`.  The code
increments `connects` only on a CONNECTED event for a connection with a
bound slot context, but increments `disconnects` on every DISCONNECTED
event — including those of connections admitted through the
accept-then-close rejection path, which never get a context.  `Reach`
describes the executions in which every disconnect is matched: a
DISCONNECTED event is only delivered for a connection in `live`, the set
of connections whose CONNECTED event was processed with a bound context
and that have not yet disconnected. -/
inductive Reach : State → Finset Nat → Prop where
  | init : Reach initialState ∅
  | quiet (s : State) (live : Finset Nat) (e : Event) (r : StepResult) :
      Reach s live → handle s e = some r →
      r.state.connects = s.connects → r.state.disconnects = s.disconnects →
      Reach r.state live
  | conn (s : State) (live : Finset Nat) (c : Nat) (m : List Bool)
      (i : Fin MAX_CONNECTIONS) (r : StepResult) :
      Reach s live → s.ctx c = some i → c ∉ live →
      handle s (Event.connected c m) = some r →
      Reach r.state (insert c live)
  | disc (s : State) (live : Finset Nat) (c : Nat) (b : Bool) (r : StepResult) :
      Reach s live → c ∈ live →
      handle s (Event.disconnected c b) = some r →
      Reach r.state (live.erase c)

lemma reach_counts (s : State) (live : Finset Nat) (h : Reach s live) :
    s.connects = s.disconnects + (live.card : Int) := by
  induction h with
  | init => simp [initialState]
  | quiet s live e r _ hstep hc hd ih =>
      rw [hc, hd]
      exact ih
  | conn s live c m i r _ hctx hnot hstep ih =>
      rw [handle_connected_ctx s c m i hctx] at hstep
      obtain rfl : _ = r := Option.some.inj hstep
      simp only [Finset.card_insert_of_not_mem hnot]
      push_cast
      omega
  | disc s live c b r _ hmem hstep ih =>
      rw [handle_disconnected_eq s c b] at hstep
      obtain rfl : _ = r := Option.some.inj hstep
      have hpos : 1 ≤ live.card := Finset.card_pos.mpr ⟨c, hmem⟩
      have hcard : (live.erase c).card = live.card - 1 :=
        Finset.card_erase_of_mem hmem
      show s.connects = s.disconnects + 1 + ((live.erase c).card : Int)
      rw [hcard]
      omega

/-- Claim C1, amended: `disconnects ≤ connects` holds at every point of
an execution in which every DISCONNECTED event is delivered for a
connection that previously processed its CONNECTED event with a bound
slot and has not yet disconnected.  (The claim as stated, which also
covers the accept-then-close rejection path, is refuted by
`C1_counterexample`: a rejected connection has no slot, so its
CONNECTED event does not increment `connects`, while its DISCONNECTED
event still increments `disconnects`.) -/
theorem C1_matched_disconnect_invariant (s : State) (live : Finset Nat)
    (h : Reach s live) : s.disconnects ≤ s.connects := by
  have hc := reach_counts s live h
  have h0 : (0 : Int) ≤ (live.card : Int) := Int.ofNat_nonneg _
  omega

/-- Witness for the amended C1 at the initial state. -/
theorem C1_witness : initialState.disconnects ≤ initialState.connects :=
  C1_matched_disconnect_invariant initialState ∅ Reach.init

/-- The event sequence refuting C1 as stated: connections 1..5 fill the
slot table and connect; connection 6 is admitted through the
accept-then-close rejection path (no slot, no context) and its
lifecycle events are still delivered; then all connections
disconnect. -/
def rejectTrace : List Event :=
  [Event.listenerAccept 1 0, Event.listenerAccept 2 0, Event.listenerAccept 3 0,
   Event.listenerAccept 4 0, Event.listenerAccept 5 0,
   Event.connected 1 [], Event.connected 2 [], Event.connected 3 [],
   Event.connected 4 [], Event.connected 5 [],
   Event.listenerAccept 6 0, Event.connected 6 [],
   Event.disconnected 6 false,
   Event.disconnected 1 false, Event.disconnected 2 false,
   Event.disconnected 3 false, Event.disconnected 4 false,
   Event.disconnected 5 false]

/-- Counterexample to C1 as stated: after `rejectTrace` (which exercises
the accept-then-close rejection path) the global counters are
`connects = 5`, `disconnects = 6`, so `disconnects ≤ connects` fails. -/
theorem C1_counterexample :
    (runTrace initialState rejectTrace).map
      (fun s => (s.connects, s.disconnects)) = some (5, 6) ∧
    (runTrace initialState rejectTrace).map
      (fun s => decide (s.disconnects ≤ s.connects)) = some false := by
  constructor
  · decide
  · decide

/-- Claim C2, amended: after a disconnect event for a connection bound to
a slot, the slot is free (`connection` cleared by `free_conn_data`) and
`disconnects` is incremented, but the cumulative `bytes` and `buffers`
counters and `last_recv_time` are NOT reset: `free_conn_data` clears only
the connection handle and `make_conn_data` writes only the connection
handle, so the stale values persist into the slot's reuse (see
`C2_counterexample`). -/
theorem C2_slot_freed_counters_persist (s : State) (c : Nat) (b : Bool)
    (i : Fin MAX_CONNECTIONS) (hctx : s.ctx c = some i) :
    ∃ r, handle s (Event.disconnected c b) = some r ∧
      (r.state.conn_data i).connection = none ∧
      (r.state.conn_data i).bytes = (s.conn_data i).bytes ∧
      (r.state.conn_data i).buffers = (s.conn_data i).buffers ∧
      (r.state.conn_data i).last_recv_time = (s.conn_data i).last_recv_time ∧
      r.state.disconnects = s.disconnects + 1 := by
  refine ⟨_, handle_disconnected_eq s c b, ?_, ?_, ?_, ?_, rfl⟩ <;>
    simp [free_conn_data, hctx]

/-- Witness for the amended C2: connection 1 bound to slot 0
disconnects. -/
theorem C2_witness :
    ∃ r, handle s1 (Event.disconnected 1 false) = some r ∧
      (r.state.conn_data 0).connection = none ∧
      (r.state.conn_data 0).bytes = (s1.conn_data 0).bytes ∧
      (r.state.conn_data 0).buffers = (s1.conn_data 0).buffers ∧
      (r.state.conn_data 0).last_recv_time = (s1.conn_data 0).last_recv_time ∧
      r.state.disconnects = s1.disconnects + 1 :=
  C2_slot_freed_counters_persist s1 1 false 0 (by decide)

/-- The event sequence refuting C2 as stated: connection 1 uses slot 0
(receiving 5 bytes in 1 buffer at time 10), disconnects, and then
connection 2 reuses slot 0. -/
def reuseTrace : List Event :=
  [Event.listenerAccept 1 0, Event.connected 1 [],
   Event.read 1 10 [[echoBuf]] false false,
   Event.disconnected 1 false,
   Event.listenerAccept 2 20]

/-- Counterexample to C2 as stated: after `reuseTrace`, slot 0 is reused
by connection 2 while still carrying `bytes = 5`, `buffers = 1` and
`last_recv_time = 10` from connection 1 — the counters were not reset to
0 before reuse. -/
theorem C2_counterexample :
    (runTrace initialState reuseTrace).map
      (fun s => ((s.conn_data 0).connection, (s.conn_data 0).bytes,
        (s.conn_data 0).buffers, (s.conn_data 0).last_recv_time)) =
      some (some 2, 5, 1, 10) := by decide

/-! Equations used to reason about `handle` on the remaining event
shapes. -/

lemma handle_needReadBuffers_def (s : State) (c : Nat) :
    handle s (Event.needReadBuffers c) =
      (handle_receive s (Event.needReadBuffers c)).map
        fun p => ⟨p.1, p.2, p.1.exit_code == 0⟩ := rfl

lemma handle_closedWrite_def (s : State) (c : Nat) :
    handle s (Event.closedWrite c) =
      (handle_receive s (Event.closedWrite c)).map
        fun p => ⟨p.1, p.2, p.1.exit_code == 0⟩ := rfl

lemma handle_closedRead_def (s : State) (c : Nat) :
    handle s (Event.closedRead c) =
      (handle_receive s (Event.closedRead c)).map
        fun p => ⟨p.1, p.2, p.1.exit_code == 0⟩ := rfl

lemma handle_written_def (s : State) (c : Nat)
    (batches : List (List RawBuffer)) (rc : Bool) :
    handle s (Event.written c batches rc) =
      (handle_receive s (Event.written c batches rc)).map
        fun p => ⟨p.1, p.2, p.1.exit_code == 0⟩ := rfl

lemma handle_receive_exit_code (s : State) (e : Event) (p : State × List Action)
    (h : handle_receive s e = some p) : p.1.exit_code = s.exit_code := by
  cases e with
  | connected c m =>
      rcases hc : s.ctx c with _ | i <;> simp only [handle_receive, hc] at h <;>
        · obtain rfl : _ = p := Option.some.inj h
          rfl
  | wakeup c =>
      rcases hc : s.ctx c with _ | i <;> simp only [handle_receive, hc] at h
      · exact absurd h (by simp)
      · obtain rfl : _ = p := Option.some.inj h
        rfl
  | disconnected c b =>
      simp only [handle_receive] at h
      obtain rfl : _ = p := Option.some.inj h
      rfl
  | needReadBuffers c =>
      simp only [handle_receive] at h
      obtain rfl : _ = p := Option.some.inj h
      rfl
  | read c now batches w r =>
      rcases hc : s.ctx c with _ | i <;> simp only [handle_receive, hc] at h
      · exact absurd h (by simp)
      · obtain rfl : _ = p := Option.some.inj h
        rfl
  | closedWrite c =>
      simp only [handle_receive] at h
      obtain rfl : _ = p := Option.some.inj h
      rfl
  | closedRead c =>
      simp only [handle_receive] at h
      obtain rfl : _ = p := Option.some.inj h
      rfl
  | written c batches rc =>
      simp only [handle_receive] at h
      obtain rfl : _ = p := Option.some.inj h
      rfl
  | listenerOpen =>
      simp only [handle_receive] at h
      obtain rfl : _ = p := Option.some.inj h
      rfl
  | listenerAccept c now =>
      simp only [handle_receive] at h
      obtain rfl : _ = p := Option.some.inj h
      rfl
  | listenerClose b =>
      simp only [handle_receive] at h
      obtain rfl : _ = p := Option.some.inj h
      rfl
  | timeout now =>
      simp only [handle_receive] at h
      obtain rfl : _ = p := Option.some.inj h
      rfl
  | inactive =>
      simp only [handle_receive] at h
      obtain rfl : _ = p := Option.some.inj h
      rfl

/-- Claim C8, amended: the exit code starts at 0 and becomes 1 exactly
when the LISTENER reports an error condition at its close event (which
also stops the event loop); every other event — in particular a
connection-level error condition on a disconnect — leaves the exit code
unchanged.  (The claim as stated, "1 if any connection or listener
reported an error condition", is refuted by `C8_counterexample`:
connection errors are only logged by `check_condition`, never promoted
to the exit code.) -/
theorem C8_exit_code_listener_only (s : State) (e : Event) (r : StepResult)
    (hr : handle s e = some r) :
    (e = Event.listenerClose true →
      r.state.exit_code = 1 ∧ r.cont = false) ∧
    (e ≠ Event.listenerClose true → r.state.exit_code = s.exit_code) ∧
    initialState.exit_code = 0 := by
  refine ⟨?_, ?_, rfl⟩
  · intro he
    subst he
    simp only [handle] at hr
    obtain rfl : _ = r := Option.some.inj hr
    exact ⟨rfl, by simp⟩
  · intro hne
    cases e with
    | listenerOpen =>
        simp only [handle] at hr
        obtain rfl : _ = r := Option.some.inj hr
        rfl
    | listenerAccept c now =>
        rcases hmk : make_conn_data c s.conn_data with ⟨oi, cd2⟩
        cases oi <;> simp only [handle, hmk] at hr <;>
          · obtain rfl : _ = r := Option.some.inj hr
            rfl
    | listenerClose b =>
        cases b
        · simp only [handle] at hr
          obtain rfl : _ = r := Option.some.inj hr
          simp
        · exact absurd rfl hne
    | timeout now =>
        simp only [handle] at hr
        split at hr
        all_goals try split at hr
        all_goals try split at hr
        all_goals
          obtain rfl : _ = r := Option.some.inj hr
          rfl
    | inactive =>
        simp only [handle] at hr
        obtain rfl : _ = r := Option.some.inj hr
        rfl
    | connected c m =>
        rw [handle_connected_def] at hr
        obtain ⟨p, hp, rfl⟩ := Option.map_eq_some'.mp hr
        exact handle_receive_exit_code s _ p hp
    | wakeup c =>
        rw [handle_wakeup_def] at hr
        obtain ⟨p, hp, rfl⟩ := Option.map_eq_some'.mp hr
        exact handle_receive_exit_code s _ p hp
    | disconnected c b =>
        rw [handle_disconnected_def] at hr
        obtain ⟨p, hp, rfl⟩ := Option.map_eq_some'.mp hr
        exact handle_receive_exit_code s _ p hp
    | needReadBuffers c =>
        rw [handle_needReadBuffers_def] at hr
        obtain ⟨p, hp, rfl⟩ := Option.map_eq_some'.mp hr
        exact handle_receive_exit_code s _ p hp
    | read c now batches w rc =>
        rw [handle_read_def] at hr
        obtain ⟨p, hp, rfl⟩ := Option.map_eq_some'.mp hr
        exact handle_receive_exit_code s _ p hp
    | closedWrite c =>
        rw [handle_closedWrite_def] at hr
        obtain ⟨p, hp, rfl⟩ := Option.map_eq_some'.mp hr
        exact handle_receive_exit_code s _ p hp
    | closedRead c =>
        rw [handle_closedRead_def] at hr
        obtain ⟨p, hp, rfl⟩ := Option.map_eq_some'.mp hr
        exact handle_receive_exit_code s _ p hp
    | written c batches rc =>
        rw [handle_written_def] at hr
        obtain ⟨p, hp, rfl⟩ := Option.map_eq_some'.mp hr
        exact handle_receive_exit_code s _ p hp

/-- The result of the listener-close-with-error step from the initial
state. -/
def closeErrResult : StepResult :=
  ⟨{ initialState with listener := false, exit_code := 1 }, [], false⟩

/-- Witness for the amended C8: a listener error at close sets the exit
code to 1 and stops the loop. -/
theorem C8_witness :
    (Event.listenerClose true = Event.listenerClose true →
      closeErrResult.state.exit_code = 1 ∧ closeErrResult.cont = false) ∧
    (Event.listenerClose true ≠ Event.listenerClose true →
      closeErrResult.state.exit_code = initialState.exit_code) ∧
    initialState.exit_code = 0 :=
  C8_exit_code_listener_only initialState (Event.listenerClose true)
    closeErrResult rfl

/-- The event sequence refuting C8 as stated: connection 1 disconnects
with an error condition set, then the proactor reports inactive. -/
def connErrTrace : List Event :=
  [Event.listenerAccept 1 0, Event.connected 1 [],
   Event.disconnected 1 true, Event.inactive]

/-- Counterexample to C8 as stated: a connection reported an error
condition during the run (`Event.disconnected 1 true`), yet the process
exit code is 0, not 1. -/
theorem C8_counterexample :
    (runTrace initialState connErrTrace).map State.exit_code = some 0 := by
  decide

/-- Claim C9, amended: buffer allocation is non-blocking and the
connected handler always hands the transport exactly READ_BUFFERS = 4
buffers in a single `give_read_buffers` call; but the result of each
`malloc` is never checked — on allocation failure no `AllocationError`
is raised and the connection is NOT closed: buffers whose `bytes`
pointer is NULL are handed to the transport all the same (see
`C9_counterexample`). -/
theorem C9_alloc_unchecked (s : State) (c : Nat) (m : List Bool)
    (i : Fin MAX_CONNECTIONS) (hctx : s.ctx c = some i) :
    handle s (Event.connected c m) =
      some ⟨{ s with connects := s.connects + 1 },
            [Action.giveReadBuffers c (mkReadBuffers m)], s.exit_code == 0⟩ ∧
    (mkReadBuffers m).length = READ_BUFFERS ∧
    (∀ x, Action.closeConn x ∉ [Action.giveReadBuffers c (mkReadBuffers m)]) := by
  refine ⟨handle_connected_ctx s c m i hctx, ?_, ?_⟩
  · simp [mkReadBuffers]
  · intro x
    simp

/-- Witness for the amended C9: connection 1 in slot 0 connects with all
four mallocs failing. -/
theorem C9_witness :
    handle s1 (Event.connected 1 [false, false, false, false]) =
      some ⟨{ s1 with connects := s1.connects + 1 },
            [Action.giveReadBuffers 1 (mkReadBuffers [false, false, false, false])],
            s1.exit_code == 0⟩ ∧
    (mkReadBuffers [false, false, false, false]).length = READ_BUFFERS ∧
    (∀ x, Action.closeConn x ∉
      [Action.giveReadBuffers 1 (mkReadBuffers [false, false, false, false])]) :=
  C9_alloc_unchecked s1 1 [false, false, false, false] 0 (by decide)

/-- Counterexample to C9 as stated: with every `malloc` failing, all four
buffers handed to the transport have NULL `bytes`, and the handler makes
no close-connection call — allocation failure is neither detected nor
fatal for the connection. -/
theorem C9_counterexample :
    ((mkReadBuffers [false, false, false, false]).all
      fun b => (b.bytes).isNone) = true ∧
    (handle s1 (Event.connected 1 [false, false, false, false])).map
        StepResult.acts =
      some [Action.giveReadBuffers 1 (mkReadBuffers [false, false, false, false])] := by
  constructor
  · decide
  · decide

end RawEcho
